import Mathlib

/-!
Shallow embedding of the http-async-svc client library (src/lib/index.ts).

The library wraps an injected HTTP transport (`HttpRequest`) with verb
façades (read / head / update / create / del / raw http) and curried
variants.  The core is the response materializer `http`: on a 2xx response
to a non-HEAD request it attaches `parsedBody` when the response status is
not 204 and the `content-type` header value is truthy; on a non-2xx
response it throws an error carrying the status text.

Modelling decisions:
* JavaScript promises / async-await become `Except String` results: a
  rejected promise is `.error msg` where `msg` is the error's message.
* The external node-fetch `Response` is a structure carrying status,
  statusText, headers and the result of its `json()` body-read operation
  (`Except String Json`, since JSON parsing is an external primitive that
  either yields a value or throws).  `Response.ok` is derived from the
  status exactly as node-fetch derives it (2xx range).
* TypeScript default parameters follow JavaScript semantics (`undefined`
  selects the default), so defaulted parameters are modelled as `Option`
  arguments where `none` selects the source's default value.
* JS string truthiness of `headers.get('content-type')` (null or the
  empty string are falsy) is modelled by `truthyStr`.
* For claims about transport invocations, a second, trace-instrumented
  embedding threads the list of requests handed to the transport.
-/

/-- JSON values, the structured bodies handled by `JSON.stringify` /
`resp.json()`.  Numbers are modelled as integers (the claims only involve
objects and strings). -/
inductive Json where
  | null
  | bool (b : Bool)
  | num (n : Int)
  | str (s : String)
  | arr (elems : List Json)
  | obj (fields : List (String × Json))

/-- JSON string escaping as performed by `JSON.stringify` on the characters
that occur in this development (quote, backslash, and common control
characters). -/
def jsonEscapeChar (c : Char) : String :=
  if c = '"' then "\\\""
  else if c = '\\' then "\\\\"
  else if c = '\n' then "\\n"
  else if c = '\t' then "\\t"
  else if c = '\r' then "\\r"
  else String.mk [c]

/-- Quote a string as a JSON string literal. -/
def jsonQuote (s : String) : String :=
  "\"" ++ String.join (s.data.map jsonEscapeChar) ++ "\""

mutual

/-- `JSON.stringify` on a structured value. -/
def Json.stringify : Json → String
  | .null => "null"
  | .bool true => "true"
  | .bool false => "false"
  | .num n => toString n
  | .str s => jsonQuote s
  | .arr xs => "[" ++ Json.stringifyArr xs ++ "]"
  | .obj fs => "\x7b" ++ Json.stringifyObj fs ++ "\x7d"

/-- Comma-separated serialization of array elements. -/
def Json.stringifyArr : List Json → String
  | [] => ""
  | [x] => Json.stringify x
  | x :: y :: xs => Json.stringify x ++ "," ++ Json.stringifyArr (y :: xs)

/-- Comma-separated serialization of object fields. -/
def Json.stringifyObj : List (String × Json) → String
  | [] => ""
  | [(k, v)] => jsonQuote k ++ ":" ++ Json.stringify v
  | (k, v) :: f :: fs =>
      jsonQuote k ++ ":" ++ Json.stringify v ++ "," ++ Json.stringifyObj (f :: fs)

end

/-- JS `toLowerCase` on the ASCII strings this development handles:
lowercase each character. -/
def strToLower (s : String) : String := String.mk (s.data.map Char.toLower)

/-- HTTP headers: an ordered list of name/value pairs with case-insensitive
lookup, as exposed by the fetch `Headers` interface. -/
structure Headers where
  entries : List (String × String)

/-- Case-insensitive header lookup (`headers.get(name)`); `none` models the
`null` returned for an absent header. -/
def Headers.get (h : Headers) (name : String) : Option String :=
  (h.entries.find? (fun p => strToLower p.1 == strToLower name)).map Prod.snd

/-- The default headers `{"Content-Type": "application/json"}` used by
read / head / update / create. -/
def jsonHeaders : Headers := ⟨[("Content-Type", "application/json")]⟩

/-- The request descriptor handed to the transport: `FetchRequest` wraps a
fetch `Request` built from the target url and the `RequestInit` arguments
(method, headers, optional serialized body text) assembled by a façade. -/
structure FetchRequest where
  url : String
  method : String
  headers : Headers
  body : Option String

/-- The transport's raw response: status code, status text, headers, and
the outcome of the external `resp.json()` body-read operation (`.ok v` if
the body parses to `v`, `.error e` if reading/parsing throws `e`). -/
structure Response where
  status : Nat
  statusText : String
  headers : Headers
  json : Except String Json

/-- `resp.ok`, derived from the status exactly as node-fetch derives it:
true iff the status is in the 2xx success range. -/
def Response.ok (r : Response) : Bool :=
  decide (200 ≤ r.status ∧ r.status < 300)

/-- The envelope returned to the caller: the raw response possibly
decorated with `parsedBody`.  `none` models the field being absent, which
is distinguishable from `some v` for any parsed value `v`. -/
structure HttpResponse extends Response where
  parsedBody : Option Json

/-- The transport contract (`HttpRequest` in the source): a function from a
request descriptor to a response, which may itself fail (TransportError). -/
def HttpRequest : Type := FetchRequest → Except String Response

/-- JS truthiness of the `headers.get` result: `null` and the empty string
are falsy, every non-empty string is truthy. -/
def truthyStr : Option String → Bool
  | none => false
  | some s => !s.isEmpty

/-- The success/failure policy `http` applies to a completed raw response
(the body of `http` after `await api(request.request)`): on a non-2xx
response throw an error carrying the status text; on a 2xx response to a
non-HEAD request, attach `parsedBody := resp.json()` when the status is
not 204 and the `content-type` header value is truthy, propagating a
parse error; otherwise return the response undecorated. -/
def materialize (request : FetchRequest) (resp : Response) :
    Except String HttpResponse :=
  if resp.ok then
    if strToLower request.method ≠ "head" then
      let contentType := resp.headers.get "content-type"
      if resp.status ≠ 204 ∧ truthyStr contentType = true then
        match resp.json with
        | .ok v => .ok ⟨resp, some v⟩
        | .error e => .error e
      else .ok ⟨resp, none⟩
    else .ok ⟨resp, none⟩
  else .error resp.statusText

/-- `http`: await the transport on the request, then materialize the
response.  A transport failure propagates unchanged. -/
def http (api : HttpRequest) (request : FetchRequest) :
    Except String HttpResponse :=
  match api request with
  | .ok resp => materialize request resp
  | .error e => .error e

/-- `curriedHttp`: transport first, then the request. -/
def curriedHttp (api : HttpRequest) : FetchRequest → Except String HttpResponse :=
  fun request => http api request

/-- `read`: GET façade.  `headers` defaults to `jsonHeaders` when the
caller passes `none` (JS `undefined`). -/
def read (api : HttpRequest) (path : String) (headers : Option Headers) :
    Except String HttpResponse :=
  http api ⟨path, "get", headers.getD jsonHeaders, none⟩

/-- `curriedRead`: transport, then path, then headers. -/
def curriedRead (api : HttpRequest) :
    String → Option Headers → Except String HttpResponse :=
  fun path headers => http api ⟨path, "get", headers.getD jsonHeaders, none⟩

/-- `head`: HEAD façade with the same header default. -/
def head (api : HttpRequest) (path : String) (headers : Option Headers) :
    Except String HttpResponse :=
  http api ⟨path, "head", headers.getD jsonHeaders, none⟩

/-- `curriedHead`: transport, then path, then headers. -/
def curriedHead (api : HttpRequest) :
    String → Option Headers → Except String HttpResponse :=
  fun path headers => http api ⟨path, "head", headers.getD jsonHeaders, none⟩

/-- `update`: PUT façade; the body value is serialized with
`JSON.stringify` into the descriptor. -/
def update (api : HttpRequest) (path : String) (headers : Option Headers)
    (body : Json) : Except String HttpResponse :=
  http api ⟨path, "put", headers.getD jsonHeaders, some (Json.stringify body)⟩

/-- `curriedUpdate`: transport, then path, then headers, then body. -/
def curriedUpdate (api : HttpRequest) :
    String → Option Headers → Json → Except String HttpResponse :=
  fun path headers body =>
    http api ⟨path, "put", headers.getD jsonHeaders, some (Json.stringify body)⟩

/-- `CreateMethod`: the enum constraining the create façade to PUT or POST;
its values are the method strings "put" and "post". -/
inductive CreateMethod where
  | put
  | post

/-- The string value of a `CreateMethod` member. -/
def CreateMethod.toStr : CreateMethod → String
  | .put => "put"
  | .post => "post"

/-- `create`: PUT-or-POST façade; the body value is serialized with
`JSON.stringify` into the descriptor. -/
def create (api : HttpRequest) (method : CreateMethod) (path : String)
    (headers : Option Headers) (body : Json) : Except String HttpResponse :=
  http api ⟨path, method.toStr, headers.getD jsonHeaders, some (Json.stringify body)⟩

/-- `curriedCreate`: transport, then method, then path, then headers, then
body. -/
def curriedCreate (api : HttpRequest) :
    CreateMethod → String → Option Headers → Json → Except String HttpResponse :=
  fun method path headers body =>
    http api ⟨path, method.toStr, headers.getD jsonHeaders, some (Json.stringify body)⟩

/-- `del`: DELETE façade; headers default to the empty mapping and the body
defaults to the empty object, and the serialized body is always placed in
the descriptor.  There is no method parameter: the method is always
"delete". -/
def del (api : HttpRequest) (path : String) (headers : Option Headers)
    (body : Option Json) : Except String HttpResponse :=
  http api ⟨path, "delete", headers.getD ⟨[]⟩,
    some (Json.stringify (body.getD (Json.obj [])))⟩

/-- `curriedDel`: transport, then path, then headers, then body. -/
def curriedDel (api : HttpRequest) :
    String → Option Headers → Option Json → Except String HttpResponse :=
  fun path headers body =>
    http api ⟨path, "delete", headers.getD ⟨[]⟩,
      some (Json.stringify (body.getD (Json.obj [])))⟩

/-! ## Trace-instrumented embedding

For temporal claims about transport invocations, the asynchronous calls
are embedded in state-passing style: the state is the list of request
descriptors handed to the transport so far, and a pure transport is
lifted with `logT`, which records each invocation.  Partial applications
of the curried façades are ordinary Lean values of function type and
carry no state transition; only running a fully applied façade threads
the trace. -/

/-- The invocation trace: the requests handed to the transport, in order. -/
abbrev Trace : Type := List FetchRequest

/-- A trace-instrumented transport. -/
def HttpRequestT : Type := FetchRequest → Trace → Except String Response × Trace

/-- Lift a pure transport, recording every invocation on the trace. -/
def logT (t : HttpRequest) : HttpRequestT :=
  fun r l => (t r, l ++ [r])

/-- `http` in the trace-instrumented embedding: invoke the transport, then
materialize; materialization itself touches no transport. -/
def httpT (api : HttpRequestT) (request : FetchRequest) :
    Trace → Except String HttpResponse × Trace :=
  fun l =>
    match api request l with
    | (.ok resp, l2) => (materialize request resp, l2)
    | (.error e, l2) => (.error e, l2)

/-- `update` in the trace-instrumented embedding. -/
def updateT (api : HttpRequestT) (path : String) (headers : Option Headers)
    (body : Json) : Trace → Except String HttpResponse × Trace :=
  httpT api ⟨path, "put", headers.getD jsonHeaders, some (Json.stringify body)⟩

/-- `create` in the trace-instrumented embedding. -/
def createT (api : HttpRequestT) (method : CreateMethod) (path : String)
    (headers : Option Headers) (body : Json) :
    Trace → Except String HttpResponse × Trace :=
  httpT api ⟨path, method.toStr, headers.getD jsonHeaders, some (Json.stringify body)⟩

/-- `curriedHttp` in the trace-instrumented embedding. -/
def curriedHttpT (api : HttpRequestT) :
    FetchRequest → Trace → Except String HttpResponse × Trace :=
  fun request => httpT api request

/-- `curriedRead` in the trace-instrumented embedding. -/
def curriedReadT (api : HttpRequestT) :
    String → Option Headers → Trace → Except String HttpResponse × Trace :=
  fun path headers => httpT api ⟨path, "get", headers.getD jsonHeaders, none⟩

/-- `curriedHead` in the trace-instrumented embedding. -/
def curriedHeadT (api : HttpRequestT) :
    String → Option Headers → Trace → Except String HttpResponse × Trace :=
  fun path headers => httpT api ⟨path, "head", headers.getD jsonHeaders, none⟩

/-- `curriedUpdate` in the trace-instrumented embedding. -/
def curriedUpdateT (api : HttpRequestT) :
    String → Option Headers → Json → Trace → Except String HttpResponse × Trace :=
  fun path headers body =>
    httpT api ⟨path, "put", headers.getD jsonHeaders, some (Json.stringify body)⟩

/-- `curriedCreate` in the trace-instrumented embedding. -/
def curriedCreateT (api : HttpRequestT) :
    CreateMethod → String → Option Headers → Json →
      Trace → Except String HttpResponse × Trace :=
  fun method path headers body =>
    httpT api ⟨path, method.toStr, headers.getD jsonHeaders, some (Json.stringify body)⟩

/-- `curriedDel` in the trace-instrumented embedding. -/
def curriedDelT (api : HttpRequestT) :
    String → Option Headers → Option Json →
      Trace → Except String HttpResponse × Trace :=
  fun path headers body =>
    httpT api ⟨path, "delete", headers.getD ⟨[]⟩,
      some (Json.stringify (body.getD (Json.obj [])))⟩

/-! ## Helper lemmas -/

/-- When the transport returns a response, `http` is its materialization. -/
theorem http_eq_materialize (api : HttpRequest) (req : FetchRequest)
    (resp : Response) (h : api req = .ok resp) :
    http api req = materialize req resp := by
  unfold http
  rw [h]

/-- Materializing a non-2xx response fails with the status text. -/
theorem materialize_fail (req : FetchRequest) (resp : Response)
    (h : resp.ok = false) :
    materialize req resp = .error resp.statusText := by
  unfold materialize
  rw [h]
  simp

/-- Materializing a 2xx response to a HEAD request returns the response
undecorated, whatever its headers, status, or body. -/
theorem materialize_head (req : FetchRequest) (resp : Response)
    (hok : resp.ok = true) (hm : strToLower req.method = "head") :
    materialize req resp = .ok ⟨resp, none⟩ := by
  unfold materialize
  rw [hok, hm]
  simp

/-- Materializing a 2xx non-HEAD response whose content-type/204 check
fails returns the response undecorated. -/
theorem materialize_skip (req : FetchRequest) (resp : Response)
    (hok : resp.ok = true) (hm : strToLower req.method ≠ "head")
    (hc : ¬(resp.status ≠ 204 ∧ truthyStr (resp.headers.get "content-type") = true)) :
    materialize req resp = .ok ⟨resp, none⟩ := by
  unfold materialize
  rw [hok]
  simp [hm, hc]

/-- Materializing a 2xx non-HEAD non-204 response with a truthy
content-type attaches the parsed body. -/
theorem materialize_parse (req : FetchRequest) (resp : Response) (v : Json)
    (hok : resp.ok = true) (hm : strToLower req.method ≠ "head")
    (h204 : resp.status ≠ 204)
    (hct : truthyStr (resp.headers.get "content-type") = true)
    (hj : resp.json = .ok v) :
    materialize req resp = .ok ⟨resp, some v⟩ := by
  unfold materialize
  rw [hok]
  simp [hm, h204, hct, hj]

/-- Materializing a 2xx non-HEAD non-204 response with a truthy
content-type propagates a body-parse error unchanged. -/
theorem materialize_parse_err (req : FetchRequest) (resp : Response)
    (e : String) (hok : resp.ok = true) (hm : strToLower req.method ≠ "head")
    (h204 : resp.status ≠ 204)
    (hct : truthyStr (resp.headers.get "content-type") = true)
    (hj : resp.json = .error e) :
    materialize req resp = .error e := by
  unfold materialize
  rw [hok]
  simp [hm, h204, hct, hj]

/-- Running the traced `http` on a logged pure transport produces the pure
result and appends exactly the one request handed to the transport. -/
theorem httpT_logT (t : HttpRequest) (r : FetchRequest) (l : Trace) :
    httpT (logT t) r l = (http t r, l ++ [r]) := by
  unfold httpT logT http
  cases t r <;> rfl

/-! ## Concrete fixtures for counterexamples and witnesses -/

/-- A 200 response whose `Content-Type` header is present but has the
empty string as its value, with a body that parses fine. -/
def respC1 : Response :=
  ⟨200, "OK", ⟨[("Content-Type", "")]⟩, .ok (Json.obj [("id", Json.num 1)])⟩

/-- A GET request used with `respC1`. -/
def reqC1 : FetchRequest := ⟨"/c1", "get", jsonHeaders, none⟩

/-- A 201 response whose `Content-Type` header is present with an empty
value and whose body does not parse as JSON. -/
def respC4 : Response :=
  ⟨201, "Created", ⟨[("Content-Type", "")]⟩, .error "Unexpected token x in JSON"⟩

/-- A POST request used with `respC4`. -/
def reqC4 : FetchRequest := ⟨"/c4", "post", jsonHeaders, some "x"⟩

/-- An ordinary 200 JSON response. -/
def respW1 : Response :=
  ⟨200, "OK", ⟨[("content-type", "application/json")]⟩, .ok (Json.str "hi")⟩

/-- A GET request used with `respW1`. -/
def reqW1 : FetchRequest := ⟨"/w1", "get", jsonHeaders, none⟩

/-- A 200 JSON response offered to a HEAD request. -/
def respW2 : Response :=
  ⟨200, "OK", ⟨[("content-type", "application/json")]⟩, .ok (Json.num 5)⟩

/-- An uppercase-method HEAD request used with `respW2`. -/
def reqW2 : FetchRequest := ⟨"/w2", "HEAD", jsonHeaders, none⟩

/-- A 404 response. -/
def resp404 : Response := ⟨404, "Not Found", ⟨[]⟩, .ok Json.null⟩

/-- A GET request used with `resp404`. -/
def reqW3 : FetchRequest := ⟨"/missing", "get", jsonHeaders, none⟩

/-- A 200 response with a malformed JSON body. -/
def respW4 : Response :=
  ⟨200, "OK", ⟨[("content-type", "application/json")]⟩,
    .error "Unexpected end of JSON input"⟩

/-- A GET request used with `respW4`. -/
def reqW4 : FetchRequest := ⟨"/w4", "get", jsonHeaders, none⟩

/-- A 200 JSON response used for the method-case-insensitivity claim. -/
def respW10 : Response :=
  ⟨200, "OK", ⟨[("content-type", "application/json")]⟩, .ok (Json.num 7)⟩

/-! ## Claims -/

/-- C1 (amended): for every successful (2xx) response to a non-HEAD
request that yields an envelope, `parsedBody` is attached, and equal to
the JSON-parse of the response body, if and only if the `Content-Type`
response header is present with a non-empty value and the status code is
not 204; in all other success cases `parsedBody` is left unset (`none`),
distinguishable from any parsed value. -/
theorem C1_parsedBody_policy (api : HttpRequest) (req : FetchRequest)
    (resp : Response) (env : HttpResponse)
    (hapi : api req = .ok resp) (hok : resp.ok = true)
    (hm : strToLower req.method ≠ "head")
    (henv : http api req = .ok env) :
    (env.parsedBody.isSome = true ↔
      (truthyStr (resp.headers.get "content-type") = true ∧ resp.status ≠ 204)) ∧
    (∀ v, resp.json = .ok v →
      truthyStr (resp.headers.get "content-type") = true → resp.status ≠ 204 →
      env.parsedBody = some v) := by
  rw [http_eq_materialize api req resp hapi] at henv
  by_cases hc : resp.status ≠ 204 ∧ truthyStr (resp.headers.get "content-type") = true
  · cases hj : resp.json with
    | ok v =>
        rw [materialize_parse req resp v hok hm hc.1 hc.2 hj] at henv
        injection henv with h
        rw [← h]
        constructor
        · simp [hc.1, hc.2]
        · intro v2 hj2 _ _
          injection hj2 with hv
          rw [hv]
    | error e =>
        rw [materialize_parse_err req resp e hok hm hc.1 hc.2 hj] at henv
        exact Except.noConfusion henv
  · rw [materialize_skip req resp hok hm hc] at henv
    injection henv with h
    rw [← h]
    constructor
    · simp only [HttpResponse.parsedBody, Option.isSome_none]
      constructor
      · intro hfalse; exact absurd hfalse (by simp)
      · intro hrhs; exact absurd ⟨hrhs.2, hrhs.1⟩ hc
    · intro v2 _ hct h204
      exact absurd ⟨h204, hct⟩ hc

/-- C1 counterexample: a 200 response to a GET whose `Content-Type` header
is present (with the empty string as its value) and whose body parses,
yet the returned envelope has no `parsedBody` — refuting the claim that
presence of the header (with status not 204) suffices for attachment. -/
theorem C1_counterexample :
    (respC1.headers.get "content-type").isSome = true ∧
    respC1.status = 200 ∧
    strToLower reqC1.method ≠ "head" ∧
    respC1.json = .ok (Json.obj [("id", Json.num 1)]) ∧
    http (fun _ => .ok respC1) reqC1 = .ok ⟨respC1, none⟩ := by
  refine ⟨rfl, rfl, by decide, rfl, rfl⟩

/-- C1 witness: the amended policy instantiated at a concrete 200 JSON
response to a GET request. -/
theorem C1_witness :
    ((⟨respW1, some (Json.str "hi")⟩ : HttpResponse).parsedBody.isSome = true ↔
      (truthyStr (respW1.headers.get "content-type") = true ∧ respW1.status ≠ 204)) ∧
    (⟨respW1, some (Json.str "hi")⟩ : HttpResponse).parsedBody = some (Json.str "hi") :=
  ⟨(C1_parsedBody_policy (fun _ => .ok respW1) reqW1 respW1
      ⟨respW1, some (Json.str "hi")⟩ rfl rfl (by decide) rfl).1,
   (C1_parsedBody_policy (fun _ => .ok respW1) reqW1 respW1
      ⟨respW1, some (Json.str "hi")⟩ rfl rfl (by decide) rfl).2
      (Json.str "hi") rfl (by decide) (by decide)⟩

/-- C2: for every successful response to a request whose method is HEAD
(in any letter case), the materializer never reads or attaches a body:
the returned envelope is the raw response with `parsedBody` absent,
whatever the response's status, Content-Type header, or body content
(the conclusion does not depend on `resp.json`). -/
theorem C2_head_no_body (api : HttpRequest) (req : FetchRequest)
    (resp : Response)
    (hapi : api req = .ok resp) (hok : resp.ok = true)
    (hm : strToLower req.method = "head") :
    http api req = .ok ⟨resp, none⟩ := by
  rw [http_eq_materialize api req resp hapi]
  exact materialize_head req resp hok hm

/-- C2 witness: a HEAD request against a 200 response that has both a
content-type header and a parseable body still yields no `parsedBody`. -/
theorem C2_witness :
    http (fun _ => .ok respW2) reqW2 = .ok ⟨respW2, none⟩ :=
  C2_head_no_body (fun _ => .ok respW2) reqW2 respW2 rfl rfl (by decide)

/-- C3: for every response whose status is outside the 2xx success range,
every façade — http, read, head, create, update, del and their curried
forms — fails with an error whose message equals the response's status
text, and no envelope is returned.  The response's `json` field is
arbitrary, so no body materialization enters the failure path. -/
theorem C3_non2xx_fails (api : HttpRequest) (resp : Response)
    (req : FetchRequest) (m : CreateMethod) (path : String)
    (hs : Option Headers) (ob : Option Json) (b : Json)
    (hapi : ∀ r, api r = .ok resp)
    (hfail : ¬(200 ≤ resp.status ∧ resp.status < 300)) :
    http api req = .error resp.statusText ∧
    read api path hs = .error resp.statusText ∧
    head api path hs = .error resp.statusText ∧
    create api m path hs b = .error resp.statusText ∧
    update api path hs b = .error resp.statusText ∧
    del api path hs ob = .error resp.statusText ∧
    curriedHttp api req = .error resp.statusText ∧
    curriedRead api path hs = .error resp.statusText ∧
    curriedHead api path hs = .error resp.statusText ∧
    curriedCreate api m path hs b = .error resp.statusText ∧
    curriedUpdate api path hs b = .error resp.statusText ∧
    curriedDel api path hs ob = .error resp.statusText := by
  have hok : resp.ok = false := decide_eq_false hfail
  have key : ∀ r, http api r = .error resp.statusText := by
    intro r
    rw [http_eq_materialize api r resp (hapi r)]
    exact materialize_fail r resp hok
  exact ⟨key _, key _, key _, key _, key _, key _,
    key _, key _, key _, key _, key _, key _⟩

/-- C3 witness: a constant 404 transport makes `read` and `del` fail with
the message "Not Found". -/
theorem C3_witness :
    read (fun _ => .ok resp404) "/missing" none = .error "Not Found" ∧
    del (fun _ => .ok resp404) "/missing" none none = .error "Not Found" :=
  ⟨(C3_non2xx_fails (fun _ => .ok resp404) resp404 reqW3 CreateMethod.post
      "/missing" none none Json.null (fun _ => rfl) (by decide)).2.1,
   (C3_non2xx_fails (fun _ => .ok resp404) resp404 reqW3 CreateMethod.post
      "/missing" none none Json.null (fun _ => rfl) (by decide)).2.2.2.2.2.1⟩

/-- C4 (amended): for every successful non-HEAD, non-204 response whose
`Content-Type` header value is truthy (present and non-empty) and whose
body is not valid JSON, the JSON-parse error propagates to the caller as
a failed result, unchanged, and no envelope is returned. -/
theorem C4_parse_error_propagates (api : HttpRequest) (req : FetchRequest)
    (resp : Response) (e : String)
    (hapi : api req = .ok resp) (hok : resp.ok = true)
    (hm : strToLower req.method ≠ "head") (h204 : resp.status ≠ 204)
    (hct : truthyStr (resp.headers.get "content-type") = true)
    (hj : resp.json = .error e) :
    http api req = .error e := by
  rw [http_eq_materialize api req resp hapi]
  exact materialize_parse_err req resp e hok hm h204 hct hj

/-- C4 counterexample: a 201 non-HEAD response whose `Content-Type`
header is present (empty value) and whose body is not valid JSON resolves
to an envelope with no `parsedBody` instead of failing — refuting the
claim that a present header plus a malformed body always propagates a
parse error. -/
theorem C4_counterexample :
    (respC4.headers.get "content-type").isSome = true ∧
    respC4.ok = true ∧
    respC4.status ≠ 204 ∧
    strToLower reqC4.method ≠ "head" ∧
    respC4.json = .error "Unexpected token x in JSON" ∧
    http (fun _ => .ok respC4) reqC4 = .ok ⟨respC4, none⟩ := by
  refine ⟨rfl, rfl, by decide, by decide, rfl, rfl⟩

/-- C4 witness: a malformed JSON body behind a truthy content-type on a
200 GET response makes `http` fail with the parse error's message. -/
theorem C4_witness :
    http (fun _ => .ok respW4) reqW4 = .error "Unexpected end of JSON input" :=
  C4_parse_error_propagates (fun _ => .ok respW4) reqW4 respW4
    "Unexpected end of JSON input" rfl rfl (by decide) (by decide) rfl rfl

/-- C5: for every body value passed to `update` or `create`, the request
descriptor handed to the transport carries `JSON.stringify` of that value
as its body text, whatever the declared headers; in particular the value
`Json.obj [("name", Json.str "John Henry")]` serializes to the body text
`\x7b"name":"John Henry"\x7d`. -/
theorem C5_body_serialization (t : HttpRequest) (m : CreateMethod)
    (path : String) (hs : Option Headers) (b : Json) (l : Trace) :
    updateT (logT t) path hs b l =
      (update t path hs b,
        l ++ [⟨path, "put", hs.getD jsonHeaders, some (Json.stringify b)⟩]) ∧
    createT (logT t) m path hs b l =
      (create t m path hs b,
        l ++ [⟨path, m.toStr, hs.getD jsonHeaders, some (Json.stringify b)⟩]) ∧
    Json.stringify (Json.obj [("name", Json.str "John Henry")]) =
      "\x7b\"name\":\"John Henry\"\x7d" :=
  ⟨httpT_logT t _ l, httpT_logT t _ l, by rfl⟩

/-- C6: fully applied, each curried façade performs the identical
operation as its uncurried counterpart: same descriptor, same transport,
same result or failure. -/
theorem C6_curried_equals_uncurried (api : HttpRequest) (r : FetchRequest)
    (m : CreateMethod) (path : String) (hs : Option Headers) (b : Json)
    (ob : Option Json) :
    curriedHttp api r = http api r ∧
    curriedRead api path hs = read api path hs ∧
    curriedHead api path hs = head api path hs ∧
    curriedCreate api m path hs b = create api m path hs b ∧
    curriedUpdate api path hs b = update api path hs b ∧
    curriedDel api path hs ob = del api path hs ob :=
  ⟨rfl, rfl, rfl, rfl, rfl, rfl⟩

/-- C7: currying defers execution.  In the trace-instrumented embedding
every partial application of a curried façade is a plain function value
with no trace transition — the invocation trace is threaded only through
a full application — and running a fully applied curried façade from any
trace `l` yields `l` extended by exactly the one request handed to the
transport: zero transport invocations occur before the final argument is
supplied, and exactly one occurs when it is. -/
theorem C7_currying_defers_execution (t : HttpRequest) (r : FetchRequest)
    (m : CreateMethod) (path : String) (hs : Option Headers) (b : Json)
    (ob : Option Json) (l : Trace) :
    curriedHttpT (logT t) r l = (http t r, l ++ [r]) ∧
    curriedReadT (logT t) path hs l =
      (read t path hs, l ++ [⟨path, "get", hs.getD jsonHeaders, none⟩]) ∧
    curriedHeadT (logT t) path hs l =
      (head t path hs, l ++ [⟨path, "head", hs.getD jsonHeaders, none⟩]) ∧
    curriedUpdateT (logT t) path hs b l =
      (update t path hs b,
        l ++ [⟨path, "put", hs.getD jsonHeaders, some (Json.stringify b)⟩]) ∧
    curriedCreateT (logT t) m path hs b l =
      (create t m path hs b,
        l ++ [⟨path, m.toStr, hs.getD jsonHeaders, some (Json.stringify b)⟩]) ∧
    curriedDelT (logT t) path hs ob l =
      (del t path hs ob,
        l ++ [⟨path, "delete", hs.getD ⟨[]⟩,
          some (Json.stringify (ob.getD (Json.obj [])))⟩]) :=
  ⟨httpT_logT t _ l, httpT_logT t _ l, httpT_logT t _ l,
   httpT_logT t _ l, httpT_logT t _ l, httpT_logT t _ l⟩

/-- C8: when headers are omitted (`none`), read, head, create, and update
default the request headers to the json content-type mapping, while del
defaults both headers and body to empty objects (serialized body text
`\x7b\x7d`) and takes no method parameter — its method is always
"delete", whatever headers and body are supplied. -/
theorem C8_default_arguments (api : HttpRequest) (path : String)
    (m : CreateMethod) (b : Json) (hs : Option Headers) (ob : Option Json) :
    read api path none = http api ⟨path, "get", jsonHeaders, none⟩ ∧
    head api path none = http api ⟨path, "head", jsonHeaders, none⟩ ∧
    create api m path none b =
      http api ⟨path, m.toStr, jsonHeaders, some (Json.stringify b)⟩ ∧
    update api path none b =
      http api ⟨path, "put", jsonHeaders, some (Json.stringify b)⟩ ∧
    del api path none none =
      http api ⟨path, "delete", ⟨[]⟩, some "\x7b\x7d"⟩ ∧
    del api path hs ob =
      http api ⟨path, "delete", hs.getD ⟨[]⟩,
        some (Json.stringify (ob.getD (Json.obj [])))⟩ :=
  ⟨rfl, rfl, rfl, rfl, rfl, rfl⟩

/-- C9: on every success path the envelope is the transport's raw
response with at most `parsedBody` added — its status, status text,
headers and body-read result are exactly those of the raw response. -/
theorem C9_envelope_frame (api : HttpRequest) (req : FetchRequest)
    (resp : Response) (env : HttpResponse)
    (hapi : api req = .ok resp) (henv : http api req = .ok env) :
    env.toResponse = resp := by
  rw [http_eq_materialize api req resp hapi] at henv
  by_cases hok : resp.ok = true
  · by_cases hm : strToLower req.method = "head"
    · rw [materialize_head req resp hok hm] at henv
      injection henv with h
      rw [← h]
    · by_cases hc : resp.status ≠ 204 ∧
          truthyStr (resp.headers.get "content-type") = true
      · cases hj : resp.json with
        | ok v =>
            rw [materialize_parse req resp v hok hm hc.1 hc.2 hj] at henv
            injection henv with h
            rw [← h]
        | error e =>
            rw [materialize_parse_err req resp e hok hm hc.1 hc.2 hj] at henv
            exact Except.noConfusion henv
      · rw [materialize_skip req resp hok hm hc] at henv
        injection henv with h
        rw [← h]
  · rw [materialize_fail req resp (Bool.eq_false_iff.mpr hok)] at henv
    exact Except.noConfusion henv

/-- C9 witness: the frame property instantiated at a concrete 200 JSON
GET exchange. -/
theorem C9_witness :
    (⟨respW1, some (Json.str "hi")⟩ : HttpResponse).toResponse = respW1 :=
  C9_envelope_frame (fun _ => .ok respW1) reqW1 respW1
    ⟨respW1, some (Json.str "hi")⟩ rfl rfl

/-- C10: HEAD detection is case-insensitive.  For every success response
with a parseable body, body attachment is suppressed whenever the
originating request's method lowercases to "head", and for every other
method string the body is attached exactly according to the
Content-Type/204 policy. -/
theorem C10_head_case_insensitive (api : HttpRequest) (req : FetchRequest)
    (resp : Response) (v : Json)
    (hapi : api req = .ok resp) (hok : resp.ok = true)
    (hj : resp.json = .ok v) :
    (strToLower req.method = "head" → http api req = .ok ⟨resp, none⟩) ∧
    (strToLower req.method ≠ "head" →
      http api req = .ok ⟨resp,
        if resp.status ≠ 204 ∧ truthyStr (resp.headers.get "content-type") = true
        then some v else none⟩) := by
  constructor
  · intro hm
    rw [http_eq_materialize api req resp hapi]
    exact materialize_head req resp hok hm
  · intro hm
    rw [http_eq_materialize api req resp hapi]
    by_cases hc : resp.status ≠ 204 ∧
        truthyStr (resp.headers.get "content-type") = true
    · rw [if_pos hc]
      exact materialize_parse req resp v hok hm hc.1 hc.2 hj
    · rw [if_neg hc]
      exact materialize_skip req resp hok hm hc

/-- C10 witness: the method strings "HEAD", "Head" and "head" all
suppress the body on a parseable 200 JSON response, and "get" attaches it
per the policy. -/
theorem C10_witness :
    http (fun _ => .ok respW10) ⟨"/w", "HEAD", jsonHeaders, none⟩ =
      .ok ⟨respW10, none⟩ ∧
    http (fun _ => .ok respW10) ⟨"/w", "Head", jsonHeaders, none⟩ =
      .ok ⟨respW10, none⟩ ∧
    http (fun _ => .ok respW10) ⟨"/w", "head", jsonHeaders, none⟩ =
      .ok ⟨respW10, none⟩ ∧
    http (fun _ => .ok respW10) ⟨"/w", "get", jsonHeaders, none⟩ =
      .ok ⟨respW10,
        if respW10.status ≠ 204 ∧
            truthyStr (respW10.headers.get "content-type") = true
        then some (Json.num 7) else none⟩ :=
  ⟨(C10_head_case_insensitive (fun _ => .ok respW10)
      ⟨"/w", "HEAD", jsonHeaders, none⟩ respW10 (Json.num 7) rfl rfl rfl).1
      (by decide),
   (C10_head_case_insensitive (fun _ => .ok respW10)
      ⟨"/w", "Head", jsonHeaders, none⟩ respW10 (Json.num 7) rfl rfl rfl).1
      (by decide),
   (C10_head_case_insensitive (fun _ => .ok respW10)
      ⟨"/w", "head", jsonHeaders, none⟩ respW10 (Json.num 7) rfl rfl rfl).1
      (by decide),
   (C10_head_case_insensitive (fun _ => .ok respW10)
      ⟨"/w", "get", jsonHeaders, none⟩ respW10 (Json.num 7) rfl rfl rfl).2
      (by decide)⟩
